import Mathlib

/-
  Verification of the Rectangle model (src/rectangle.py).

  The class stores five parameters (x_center, y_center, radius, alpha_angle,
  beta_angle) and derived state (four vertices p1..p4 and area).  Floating
  point arithmetic is modelled over the reals.  Construction and the five
  mutators are embedded as explicit state-to-state functions that perform
  the same field updates, in the same order, as the Python methods.
-/

namespace RectangleModel

noncomputable section

/-- State of a Rectangle instance: the five stored parameters plus the
derived vertices and area, mirroring the attributes of the Python class. -/
structure Rectangle where
  x_center : ℝ
  y_center : ℝ
  radius : ℝ
  alpha_angle : ℝ
  beta_angle : ℝ
  p1 : ℝ × ℝ
  p2 : ℝ × ℝ
  p3 : ℝ × ℝ
  p4 : ℝ × ℝ
  area : ℝ

/-- `vertex_calculation`: vertex at a given angle from the center,
`(radius*cos(angle) + x_center, radius*sin(angle) + y_center)`. -/
def Rectangle.vertex_calculation (self : Rectangle) (angle : ℝ) : ℝ × ℝ :=
  (self.radius * Real.cos angle + self.x_center,
   self.radius * Real.sin angle + self.y_center)

/-- `opposite_vertex`: point reflection of a vertex through the center. -/
def Rectangle.opposite_vertex (self : Rectangle) (vertex : ℝ × ℝ) : ℝ × ℝ :=
  (2 * self.x_center - vertex.1,
   2 * self.y_center - vertex.2)

/-- `distance_calculation`: Euclidean distance between two points. -/
def distance_calculation (point_a point_b : ℝ × ℝ) : ℝ :=
  Real.sqrt ((point_a.1 - point_b.1) ^ 2 + (point_a.2 - point_b.2) ^ 2)

/-- `area_calculation`: `distance(p1,p2) * distance(p2,p3)`. -/
def Rectangle.area_calculation (self : Rectangle) : ℝ :=
  distance_calculation self.p1 self.p2 * distance_calculation self.p2 self.p3

/-- `__init__`: stores center and angles verbatim and the absolute value of
the radius, then computes p1, p2 via `vertex_calculation`, p3, p4 via
`opposite_vertex`, and area, in the order of the Python constructor.
The vertex and area fields start from placeholder zeroes and each field is
assigned from the state built so far, as in the sequential Python code. -/
def Rectangle.init (x_center y_center radius alpha_angle beta_angle : ℝ) : Rectangle :=
  let s0 : Rectangle :=
    { x_center := x_center, y_center := y_center, radius := |radius|,
      alpha_angle := alpha_angle, beta_angle := beta_angle,
      p1 := (0, 0), p2 := (0, 0), p3 := (0, 0), p4 := (0, 0), area := 0 }
  let s1 := { s0 with p1 := s0.vertex_calculation s0.alpha_angle }
  let s2 := { s1 with p2 := s1.vertex_calculation s1.beta_angle }
  let s3 := { s2 with p3 := s2.opposite_vertex s2.p1 }
  let s4 := { s3 with p4 := s3.opposite_vertex s3.p2 }
  { s4 with area := s4.area_calculation }

/-- `change_x_center`: translates the center x-coordinate and the
x-coordinate of every vertex by the delta.  The Python method does not
touch the stored `area` field. -/
def Rectangle.change_x_center (self : Rectangle) (new_x_center : ℝ) : Rectangle :=
  let delta := new_x_center - self.x_center
  { self with
    x_center := new_x_center,
    p1 := (self.p1.1 + delta, self.p1.2),
    p2 := (self.p2.1 + delta, self.p2.2),
    p3 := (self.p3.1 + delta, self.p3.2),
    p4 := (self.p4.1 + delta, self.p4.2) }

/-- `change_y_center`: translates the center y-coordinate and the
y-coordinate of every vertex by the delta.  The Python method does not
touch the stored `area` field. -/
def Rectangle.change_y_center (self : Rectangle) (new_y_center : ℝ) : Rectangle :=
  let delta := new_y_center - self.y_center
  { self with
    y_center := new_y_center,
    p1 := (self.p1.1, self.p1.2 + delta),
    p2 := (self.p2.1, self.p2.2 + delta),
    p3 := (self.p3.1, self.p3.2 + delta),
    p4 := (self.p4.1, self.p4.2 + delta) }

/-- `change_radius`: stores the absolute value of the new radius, then
recomputes p1, p2 from the stored angles, p3, p4 as opposites, and area. -/
def Rectangle.change_radius (self : Rectangle) (new_radius : ℝ) : Rectangle :=
  let s0 := { self with radius := |new_radius| }
  let s1 := { s0 with p1 := s0.vertex_calculation s0.alpha_angle }
  let s2 := { s1 with p2 := s1.vertex_calculation s1.beta_angle }
  let s3 := { s2 with p3 := s2.opposite_vertex s2.p1 }
  let s4 := { s3 with p4 := s3.opposite_vertex s3.p2 }
  { s4 with area := s4.area_calculation }

/-- `change_alpha_angle`: stores the new alpha angle, recomputes p1 and its
opposite p3, and recomputes area; p2 and p4 are untouched. -/
def Rectangle.change_alpha_angle (self : Rectangle) (new_alpha_angle : ℝ) : Rectangle :=
  let s0 := { self with alpha_angle := new_alpha_angle }
  let s1 := { s0 with p1 := s0.vertex_calculation s0.alpha_angle }
  let s2 := { s1 with p3 := s1.opposite_vertex s1.p1 }
  { s2 with area := s2.area_calculation }

/-- `change_beta_angle`: stores the new beta angle, recomputes p2 and its
opposite p4, and recomputes area; p1 and p3 are untouched. -/
def Rectangle.change_beta_angle (self : Rectangle) (new_beta_angle : ℝ) : Rectangle :=
  let s0 := { self with beta_angle := new_beta_angle }
  let s1 := { s0 with p2 := s0.vertex_calculation s0.beta_angle }
  let s2 := { s1 with p4 := s1.opposite_vertex s1.p2 }
  { s2 with area := s2.area_calculation }

/-- `get_vertices`: the list [p1, p2, p3, p4]. -/
def Rectangle.get_vertices (self : Rectangle) : List (ℝ × ℝ) :=
  [self.p1, self.p2, self.p3, self.p4]

/-- `get_center`: the pair (x_center, y_center). -/
def Rectangle.get_center (self : Rectangle) : ℝ × ℝ :=
  (self.x_center, self.y_center)

/-- `get_x_center` accessor. -/
def Rectangle.get_x_center (self : Rectangle) : ℝ := self.x_center

/-- `get_y_center` accessor. -/
def Rectangle.get_y_center (self : Rectangle) : ℝ := self.y_center

/-- `get_radius` accessor. -/
def Rectangle.get_radius (self : Rectangle) : ℝ := self.radius

/-- `get_alpha_angle` accessor. -/
def Rectangle.get_alpha_angle (self : Rectangle) : ℝ := self.alpha_angle

/-- `get_beta_angle` accessor. -/
def Rectangle.get_beta_angle (self : Rectangle) : ℝ := self.beta_angle

/-- `__eq__`: centers equal, radii equal, and the angle pairs equal either
componentwise or swapped, with the grouping of the Python boolean
expression. -/
def Rectangle.eq (self other : Rectangle) : Prop :=
  self.get_center = other.get_center
    ∧ self.radius = other.get_radius
    ∧ (self.alpha_angle = other.get_alpha_angle ∧ self.beta_angle = other.get_beta_angle
        ∨ self.alpha_angle = other.get_beta_angle ∧ self.beta_angle = other.get_alpha_angle)

/-- States reachable through the public API: a freshly constructed instance,
or the result of any of the five mutators applied to a reachable state. -/
inductive Reachable : Rectangle → Prop
  | construct (x y r a b : ℝ) : Reachable (Rectangle.init x y r a b)
  | cx (s : Rectangle) (v : ℝ) : Reachable s → Reachable (s.change_x_center v)
  | cy (s : Rectangle) (v : ℝ) : Reachable s → Reachable (s.change_y_center v)
  | cr (s : Rectangle) (v : ℝ) : Reachable s → Reachable (s.change_radius v)
  | ca (s : Rectangle) (v : ℝ) : Reachable s → Reachable (s.change_alpha_angle v)
  | cb (s : Rectangle) (v : ℝ) : Reachable s → Reachable (s.change_beta_angle v)

/-- A state agrees with the fresh construction from its own five stored
parameters: the refinement relation between incremental mutation and full
reconstruction. -/
def agrees_with_fresh_construction (s : Rectangle) : Prop :=
  s = Rectangle.init s.x_center s.y_center s.radius s.alpha_angle s.beta_angle

end

/-! ### Helper lemmas -/

/-- Closed form of the constructor: every field of `Rectangle.init`. -/
theorem init_explicit (x y r a b : ℝ) :
    Rectangle.init x y r a b =
      { x_center := x, y_center := y, radius := |r|,
        alpha_angle := a, beta_angle := b,
        p1 := (|r| * Real.cos a + x, |r| * Real.sin a + y),
        p2 := (|r| * Real.cos b + x, |r| * Real.sin b + y),
        p3 := (2 * x - (|r| * Real.cos a + x), 2 * y - (|r| * Real.sin a + y)),
        p4 := (2 * x - (|r| * Real.cos b + x), 2 * y - (|r| * Real.sin b + y)),
        area :=
          distance_calculation
              (|r| * Real.cos a + x, |r| * Real.sin a + y)
              (|r| * Real.cos b + x, |r| * Real.sin b + y)
            * distance_calculation
              (|r| * Real.cos b + x, |r| * Real.sin b + y)
              (2 * x - (|r| * Real.cos a + x), 2 * y - (|r| * Real.sin a + y)) } := rfl

/-- Constructing with the absolute value of the radius gives the same state. -/
theorem init_abs (x y r a b : ℝ) :
    Rectangle.init x y |r| a b = Rectangle.init x y r a b := by
  rw [init_explicit, init_explicit, abs_abs]

/-- `change_x_center` on a constructed state equals fresh construction. -/
theorem change_x_center_init (x y r a b v : ℝ) :
    (Rectangle.init x y r a b).change_x_center v = Rectangle.init v y r a b := by
  rw [init_explicit, init_explicit]
  simp only [Rectangle.change_x_center, distance_calculation, Rectangle.mk.injEq,
    Prod.mk.injEq]
  and_intros <;> first
    | trivial
    | ring_nf

/-- `change_y_center` on a constructed state equals fresh construction. -/
theorem change_y_center_init (x y r a b v : ℝ) :
    (Rectangle.init x y r a b).change_y_center v = Rectangle.init x v r a b := by
  rw [init_explicit, init_explicit]
  simp only [Rectangle.change_y_center, distance_calculation, Rectangle.mk.injEq,
    Prod.mk.injEq]
  and_intros <;> first
    | trivial
    | ring_nf

/-- `change_radius` on a constructed state equals fresh construction. -/
theorem change_radius_init (x y r a b v : ℝ) :
    (Rectangle.init x y r a b).change_radius v = Rectangle.init x y v a b := rfl

/-- `change_alpha_angle` on a constructed state equals fresh construction
with the stored (already normalized) radius. -/
theorem change_alpha_angle_init (x y r a b v : ℝ) :
    (Rectangle.init x y r a b).change_alpha_angle v = Rectangle.init x y |r| v b := by
  rw [init_explicit, init_explicit, abs_abs]
  rfl

/-- `change_beta_angle` on a constructed state equals fresh construction
with the stored (already normalized) radius. -/
theorem change_beta_angle_init (x y r a b v : ℝ) :
    (Rectangle.init x y r a b).change_beta_angle v = Rectangle.init x y |r| a v := by
  rw [init_explicit, init_explicit, abs_abs]
  rfl

/-- Every reachable state is a constructed state for some parameters. -/
theorem reachable_init_form (s : Rectangle) (h : Reachable s) :
    ∃ x y r a b, s = Rectangle.init x y r a b := by
  induction h with
  | construct x y r a b => exact ⟨x, y, r, a, b, rfl⟩
  | cx s v _ ih =>
      obtain ⟨x, y, r, a, b, rfl⟩ := ih
      exact ⟨v, y, r, a, b, change_x_center_init x y r a b v⟩
  | cy s v _ ih =>
      obtain ⟨x, y, r, a, b, rfl⟩ := ih
      exact ⟨x, v, r, a, b, change_y_center_init x y r a b v⟩
  | cr s v _ ih =>
      obtain ⟨x, y, r, a, b, rfl⟩ := ih
      exact ⟨x, y, v, a, b, change_radius_init x y r a b v⟩
  | ca s v _ ih =>
      obtain ⟨x, y, r, a, b, rfl⟩ := ih
      exact ⟨x, y, |r|, v, b, change_alpha_angle_init x y r a b v⟩
  | cb s v _ ih =>
      obtain ⟨x, y, r, a, b, rfl⟩ := ih
      exact ⟨x, y, |r|, a, v, change_beta_angle_init x y r a b v⟩

/-- Every reachable state coincides with a fresh construction from its own
five stored parameters. -/
theorem reachable_canonical (s : Rectangle) (h : Reachable s) :
    s = Rectangle.init s.x_center s.y_center s.radius s.alpha_angle s.beta_angle := by
  obtain ⟨x, y, r, a, b, rfl⟩ := reachable_init_form s h
  rw [init_explicit]
  exact (init_abs x y r a b).symm

/-- Distance from a vertex placed at angle `t` back to the center is `|R|`. -/
theorem dist_center_vertex (R x y t : ℝ) :
    distance_calculation (R * Real.cos t + x, R * Real.sin t + y) (x, y) = |R| := by
  unfold distance_calculation
  have h : (R * Real.cos t + x - x) ^ 2 + (R * Real.sin t + y - y) ^ 2 = R ^ 2 := by
    linear_combination R ^ 2 * Real.sin_sq_add_cos_sq t
  rw [h, Real.sqrt_sq_eq_abs]

/-- Distance from the reflected vertex back to the center is `|R|`. -/
theorem dist_center_opposite (R x y t : ℝ) :
    distance_calculation
      (2 * x - (R * Real.cos t + x), 2 * y - (R * Real.sin t + y)) (x, y) = |R| := by
  unfold distance_calculation
  have h : (2 * x - (R * Real.cos t + x) - x) ^ 2
      + (2 * y - (R * Real.sin t + y) - y) ^ 2 = R ^ 2 := by
    linear_combination R ^ 2 * Real.sin_sq_add_cos_sq t
  rw [h, Real.sqrt_sq_eq_abs]

/-! ### Claim theorems -/

/-- Claim C1: for every reachable Rectangle state, the stored `area` field
equals `distance(p1, p2) * distance(p2, p3)` computed from the current
vertices; in particular this holds after `change_x_center` and
`change_y_center`. -/
theorem rect_area_field_consistent (s : Rectangle) (h : Reachable s) :
    s.area = distance_calculation s.p1 s.p2 * distance_calculation s.p2 s.p3 := by
  obtain ⟨x, y, r, a, b, rfl⟩ := reachable_init_form s h
  rfl

/-- Witness for C1: the area consistency at a concrete reachable state,
obtained by translating a constructed rectangle along x. -/
theorem rect_area_field_consistent_witness :
    ((Rectangle.init 0 0 1 0 0).change_x_center 3).area
      = distance_calculation ((Rectangle.init 0 0 1 0 0).change_x_center 3).p1
            ((Rectangle.init 0 0 1 0 0).change_x_center 3).p2
          * distance_calculation ((Rectangle.init 0 0 1 0 0).change_x_center 3).p2
            ((Rectangle.init 0 0 1 0 0).change_x_center 3).p3 :=
  rect_area_field_consistent _ (Reachable.cx _ 3 (Reachable.construct 0 0 1 0 0))

/-- Claim C2: for every reachable Rectangle state,
`p3 = (2*x_center - p1.x, 2*y_center - p1.y)` and
`p4 = (2*x_center - p2.x, 2*y_center - p2.y)`. -/
theorem rect_opposite_vertex_invariant (s : Rectangle) (h : Reachable s) :
    s.p3 = (2 * s.x_center - s.p1.1, 2 * s.y_center - s.p1.2)
      ∧ s.p4 = (2 * s.x_center - s.p2.1, 2 * s.y_center - s.p2.2) := by
  obtain ⟨x, y, r, a, b, rfl⟩ := reachable_init_form s h
  exact ⟨rfl, rfl⟩

/-- Witness for C2: the opposite-vertex invariant at a concrete reachable
state. -/
theorem rect_opposite_vertex_invariant_witness :
    (Rectangle.init 1 2 3 0 1).p3
        = (2 * (Rectangle.init 1 2 3 0 1).x_center - (Rectangle.init 1 2 3 0 1).p1.1,
           2 * (Rectangle.init 1 2 3 0 1).y_center - (Rectangle.init 1 2 3 0 1).p1.2)
      ∧ (Rectangle.init 1 2 3 0 1).p4
        = (2 * (Rectangle.init 1 2 3 0 1).x_center - (Rectangle.init 1 2 3 0 1).p2.1,
           2 * (Rectangle.init 1 2 3 0 1).y_center - (Rectangle.init 1 2 3 0 1).p2.2) :=
  rect_opposite_vertex_invariant _ (Reachable.construct 1 2 3 0 1)

/-- Claim C3: for every reachable Rectangle state and each of the four
vertices, the Euclidean distance from the vertex to the center equals the
stored radius. -/
theorem rect_radius_invariant (s : Rectangle) (h : Reachable s) :
    ∀ v ∈ s.get_vertices, distance_calculation v s.get_center = s.radius := by
  obtain ⟨x, y, r, a, b, rfl⟩ := reachable_init_form s h
  rw [init_explicit]
  intro v hv
  simp only [Rectangle.get_vertices, List.mem_cons, List.not_mem_nil, or_false] at hv
  rcases hv with rfl | rfl | rfl | rfl
  · exact (dist_center_vertex |r| x y a).trans (abs_abs r)
  · exact (dist_center_vertex |r| x y b).trans (abs_abs r)
  · exact (dist_center_opposite |r| x y a).trans (abs_abs r)
  · exact (dist_center_opposite |r| x y b).trans (abs_abs r)

/-- Witness for C3: the radius invariant at a concrete reachable state,
checked on its first vertex. -/
theorem rect_radius_invariant_witness :
    distance_calculation (Rectangle.init 0 0 2 0 1).p1 (Rectangle.init 0 0 2 0 1).get_center
      = (Rectangle.init 0 0 2 0 1).radius :=
  rect_radius_invariant _ (Reachable.construct 0 0 2 0 1)
    (Rectangle.init 0 0 2 0 1).p1 (by simp [Rectangle.get_vertices])

/-- Claim C4: `Rectangle(0, 0, 1, 0, pi/2)` yields `p1 = (1, 0)`,
`p2 = (0, 1)`, `p3 = (-1, 0)`, `p4 = (0, -1)`, side lengths `sqrt 2` and
`sqrt 2`, and `area = 2`. -/
theorem rect_concrete_scenario :
    (Rectangle.init 0 0 1 0 (Real.pi / 2)).p1 = (1, 0)
  ∧ (Rectangle.init 0 0 1 0 (Real.pi / 2)).p2 = (0, 1)
  ∧ (Rectangle.init 0 0 1 0 (Real.pi / 2)).p3 = (-1, 0)
  ∧ (Rectangle.init 0 0 1 0 (Real.pi / 2)).p4 = (0, -1)
  ∧ distance_calculation (Rectangle.init 0 0 1 0 (Real.pi / 2)).p1
      (Rectangle.init 0 0 1 0 (Real.pi / 2)).p2 = Real.sqrt 2
  ∧ distance_calculation (Rectangle.init 0 0 1 0 (Real.pi / 2)).p2
      (Rectangle.init 0 0 1 0 (Real.pi / 2)).p3 = Real.sqrt 2
  ∧ (Rectangle.init 0 0 1 0 (Real.pi / 2)).area = 2 := by
  rw [init_explicit]
  norm_num [Real.cos_pi_div_two, Real.sin_pi_div_two, distance_calculation, Prod.ext_iff]

/-- Claim C5: translating via `change_x_center(x_center + d)` followed by
`change_y_center(y_center + d)` shifts all four vertices by `(d, d)` and
leaves radius, alpha_angle, beta_angle and area unchanged. -/
theorem rect_translation_preserves_shape (s : Rectangle) (d : ℝ) :
    ((s.change_x_center (s.x_center + d)).change_y_center (s.y_center + d)).p1
        = (s.p1.1 + d, s.p1.2 + d)
  ∧ ((s.change_x_center (s.x_center + d)).change_y_center (s.y_center + d)).p2
        = (s.p2.1 + d, s.p2.2 + d)
  ∧ ((s.change_x_center (s.x_center + d)).change_y_center (s.y_center + d)).p3
        = (s.p3.1 + d, s.p3.2 + d)
  ∧ ((s.change_x_center (s.x_center + d)).change_y_center (s.y_center + d)).p4
        = (s.p4.1 + d, s.p4.2 + d)
  ∧ ((s.change_x_center (s.x_center + d)).change_y_center (s.y_center + d)).radius
        = s.radius
  ∧ ((s.change_x_center (s.x_center + d)).change_y_center (s.y_center + d)).alpha_angle
        = s.alpha_angle
  ∧ ((s.change_x_center (s.x_center + d)).change_y_center (s.y_center + d)).beta_angle
        = s.beta_angle
  ∧ ((s.change_x_center (s.x_center + d)).change_y_center (s.y_center + d)).area
        = s.area := by
  simp only [Rectangle.change_x_center, Rectangle.change_y_center, Prod.mk.injEq]
  and_intros <;> first | rfl | ring_nf

/-- Claim C6: constructing with radius `-r` produces exactly the same state
as constructing with radius `r`, the stored radius being `|r|`; and
`change_radius` stores the absolute value of its argument. -/
theorem rect_negative_radius_normalized (x y r a b v : ℝ) (s : Rectangle) :
    Rectangle.init x y (-r) a b = Rectangle.init x y r a b
  ∧ (Rectangle.init x y (-r) a b).get_radius = |r|
  ∧ (s.change_radius v).radius = |v| := by
  refine ⟨?_, ?_, rfl⟩
  · rw [init_explicit, init_explicit, abs_neg]
  · rw [init_explicit]
    exact abs_neg r

/-- Claim C7: equality holds iff the centers are equal component-wise, the
radii are equal, and the angle pairs match as an unordered pair; concretely
the angle-swapped rectangles are equal but shifting the beta angle by
`2*pi` breaks equality. -/
theorem rect_eq_contract :
    (∀ a b : Rectangle, a.eq b ↔
      (a.x_center = b.x_center ∧ a.y_center = b.y_center ∧ a.radius = b.radius
        ∧ ((a.alpha_angle = b.alpha_angle ∧ a.beta_angle = b.beta_angle)
            ∨ (a.alpha_angle = b.beta_angle ∧ a.beta_angle = b.alpha_angle))))
  ∧ (Rectangle.init 0 0 5 0 (Real.pi / 2)).eq (Rectangle.init 0 0 5 (Real.pi / 2) 0)
  ∧ ¬ (Rectangle.init 0 0 5 0 (Real.pi / 2)).eq
        (Rectangle.init 0 0 5 0 (Real.pi / 2 + 2 * Real.pi)) := by
  refine ⟨?_, ?_, ?_⟩
  · intro a b
    simp only [Rectangle.eq, Rectangle.get_center, Rectangle.get_radius,
      Rectangle.get_alpha_angle, Rectangle.get_beta_angle, Prod.mk.injEq, and_assoc]
  · exact ⟨rfl, rfl, Or.inr ⟨rfl, rfl⟩⟩
  · intro h
    obtain ⟨-, -, h3⟩ := h
    have hpi := Real.pi_pos
    rcases h3 with ⟨-, h4⟩ | ⟨h4, -⟩
    · have : Real.pi / 2 = Real.pi / 2 + 2 * Real.pi := h4
      linarith
    · have : (0 : ℝ) = Real.pi / 2 + 2 * Real.pi := h4
      linarith

/-- Claim C8: `change_alpha_angle` leaves p2, p4, the center, the radius
and the beta angle unchanged, sets p1 to the vertex at the new angle and p3
to its reflection through the center, and recomputes area; symmetrically
`change_beta_angle` leaves p1 and p3 unchanged. -/
theorem rect_angle_mutation_isolation (s : Rectangle) (v : ℝ) :
    (s.change_alpha_angle v).p2 = s.p2
  ∧ (s.change_alpha_angle v).p4 = s.p4
  ∧ (s.change_alpha_angle v).x_center = s.x_center
  ∧ (s.change_alpha_angle v).y_center = s.y_center
  ∧ (s.change_alpha_angle v).radius = s.radius
  ∧ (s.change_alpha_angle v).beta_angle = s.beta_angle
  ∧ (s.change_alpha_angle v).p1 = s.vertex_calculation v
  ∧ (s.change_alpha_angle v).p3 = s.opposite_vertex (s.vertex_calculation v)
  ∧ (s.change_alpha_angle v).area = (s.change_alpha_angle v).area_calculation
  ∧ (s.change_beta_angle v).p1 = s.p1
  ∧ (s.change_beta_angle v).p3 = s.p3 := by
  and_intros <;> rfl

/-- Claim C9: for every reachable state, the result of any single mutator
call coincides with the state freshly constructed from the five parameter
values held after the mutation. -/
theorem rect_mutators_refine (s : Rectangle) (h : Reachable s) (v : ℝ) :
    agrees_with_fresh_construction (s.change_x_center v)
  ∧ agrees_with_fresh_construction (s.change_y_center v)
  ∧ agrees_with_fresh_construction (s.change_radius v)
  ∧ agrees_with_fresh_construction (s.change_alpha_angle v)
  ∧ agrees_with_fresh_construction (s.change_beta_angle v) :=
  ⟨reachable_canonical _ (Reachable.cx s v h),
   reachable_canonical _ (Reachable.cy s v h),
   reachable_canonical _ (Reachable.cr s v h),
   reachable_canonical _ (Reachable.ca s v h),
   reachable_canonical _ (Reachable.cb s v h)⟩

/-- Witness for C9: the refinement property at a concrete constructed
rectangle and a concrete mutation value. -/
theorem rect_mutators_refine_witness :
    agrees_with_fresh_construction ((Rectangle.init 0 0 1 0 0).change_x_center 1)
  ∧ agrees_with_fresh_construction ((Rectangle.init 0 0 1 0 0).change_y_center 1)
  ∧ agrees_with_fresh_construction ((Rectangle.init 0 0 1 0 0).change_radius 1)
  ∧ agrees_with_fresh_construction ((Rectangle.init 0 0 1 0 0).change_alpha_angle 1)
  ∧ agrees_with_fresh_construction ((Rectangle.init 0 0 1 0 0).change_beta_angle 1) :=
  rect_mutators_refine _ (Reachable.construct 0 0 1 0 0) 1

/-- Claim C10: equality is reflexive, and symmetric: `a == b` holds exactly
when `b == a`. -/
theorem rect_eq_refl_and_symm (a b : Rectangle) :
    a.eq a ∧ (a.eq b ↔ b.eq a) := by
  constructor
  · exact ⟨rfl, rfl, Or.inl ⟨rfl, rfl⟩⟩
  · constructor
    · rintro ⟨h1, h2, ⟨h3, h4⟩ | ⟨h3, h4⟩⟩
      · exact ⟨h1.symm, h2.symm, Or.inl ⟨h3.symm, h4.symm⟩⟩
      · exact ⟨h1.symm, h2.symm, Or.inr ⟨h4.symm, h3.symm⟩⟩
    · rintro ⟨h1, h2, ⟨h3, h4⟩ | ⟨h3, h4⟩⟩
      · exact ⟨h1.symm, h2.symm, Or.inl ⟨h3.symm, h4.symm⟩⟩
      · exact ⟨h1.symm, h2.symm, Or.inr ⟨h4.symm, h3.symm⟩⟩

end RectangleModel
